import Mathlib

/-!
Shallow embedding of the `performance_quyca` repository:
`api_expert/build_url.py` (URL generation from endpoint templates),
`api_expert/response_time.py` (response-time sampling and CSV output), and
`report.py` (loading and classifying the sampled data).

Strings are modelled by Lean `String`; Python substring tests, `str.replace`,
and `str.split` are modelled by executable functions over the character lists.
Durations are modelled by `ℚ`; a sampling attempt is `Option ℚ` (`some t` when
the request succeeded after `t` seconds, `none` when the HTTP client raised a
`RequestException`).
-/

namespace PerfQuyca

/-- `leadsWith p l` is true when the character list `p` is an initial segment
of `l` (used to detect an occurrence of a pattern at the head). -/
def leadsWith : List Char → List Char → Bool
  | [], _ => true
  | _ :: _, [] => false
  | p :: ps, c :: cs => p == c && leadsWith ps cs

/-- `occursIn needle hay` is Python `needle in hay` on character lists:
`needle` occurs as a contiguous segment of `hay`. -/
def occursIn (needle : List Char) : List Char → Bool
  | [] => needle.isEmpty
  | c :: cs => leadsWith needle (c :: cs) || occursIn needle cs

/-- Python `needle in hay` for strings. -/
def strIn (hay needle : String) : Bool := occursIn needle.data hay.data

/-- Fuel-indexed worker for `replAll`; the fuel dominates the length of `s`,
so recursion is structural (each step consumes at least one character because
the replaced pattern is required to be nonempty). -/
def replAllF (fuel : ℕ) (pat repl : List Char) (s : List Char) : List Char :=
  match fuel, s with
  | _, [] => []
  | 0, s => s
  | f + 1, c :: rest =>
    if 0 < pat.length ∧ leadsWith pat (c :: rest) = true then
      repl ++ replAllF f pat repl (List.drop pat.length (c :: rest))
    else
      c :: replAllF f pat repl rest

/-- Replace every (leftmost, non-overlapping) occurrence of `pat` in `s` by
`repl`, scanning left to right: the semantics of Python `str.replace` and of
`pandas.Series.str.replace` with a literal pattern. -/
def replAll (pat repl : List Char) (s : List Char) : List Char :=
  replAllF s.length pat repl s

/-- Python `s.replace(pat, repl)` for strings. -/
def strReplace (s pat repl : String) : String := ⟨replAll pat.data repl.data s.data⟩

/-! ### `api_expert/build_url.py`: constant tables -/

def BASE_URL : String := "http://localhost:8010"

def RAW_ENDPOINTS : List String :=
  [ "/api/affiliation/<affiliation_type>/<affiliation_id>/research/products",
    "/api/apc/affiliation/<affiliation_id>",
    "/api/apc/person/<person_id>",
    "/api/apc/search",
    "/api/person/<person_id>",
    "/api/person/<person_id>/research/products",
    "/api/person/<person_id>/research/news",
    "/api/search/affiliations/<affiliation_type>",
    "/api/search/person",
    "/api/search/works" ]

def AFFILIATION_IDS : List String :=
  [ "01p9nak43", "04j43p132", "027nnzv91", "059d6yn51", "0374c0d66",
    "006703856", "057jm7w82", "05sq6ae13", "05w5shm69", "03ag0xf08" ]

/-- The last entry of the Python list ends in a stray apostrophe character
(`"Gwak4WYAAAAJ'"`); it is written here via its code point 39. -/
def PERSON_IDS : List String :=
  [ "A5105622035", "A5112693177", "0000000347185957", "A5113454003",
    "A5092999615", "0000000294031566", "A5106325669", "0001513368",
    "A5041111652", "Gwak4WYAAAAJ" ++ String.singleton (Char.ofNat 39) ]

def AFFILIATION_TYPES : List String := ["institution"]

/-- The `KEYWORDS` dict with the list for key `/api/search/affiliations`
abstracted, to express that this entry is never consulted. -/
def KEYWORDS_with (l : List String) : List (String × List String) :=
  [ ("/api/search/affiliations", l),
    ("/api/search/person", ["esteban", "alejandra", "jaime", "garcia"]),
    ("/api/search/works", ["ciencia", "data", "ai", "salud"]),
    ("/api/apc/search", ["500", "1000", "1500", "2000"]) ]

def KEYWORDS : List (String × List String) :=
  KEYWORDS_with ["university", "andes", "antioquia", "open"]

/-! ### `api_expert/build_url.py`: `expand_endpoints`

`random.choice` is modelled by an arbitrary selection function
`choice : List String → String`; every theorem that depends on the selected
keyword assumes only that `choice` picks an element of a nonempty list.
The constant tables are passed as parameters (`atypes`, `aids`, `pids`,
`kwmap`) so that per-template facts can be stated for arbitrary sample
lists; `expandEndpoints` instantiates them with the tables above. -/

/-- The body of the `for endpoint in RAW_ENDPOINTS` loop of
`expand_endpoints`: the list of URLs contributed by one endpoint template. -/
def expandOne (choice : List String → String) (kwmap : List (String × List String))
    (atypes aids pids : List String) (endpoint : String) : List String :=
  if strIn endpoint "<affiliation_type>" && strIn endpoint "<affiliation_id>" then
    atypes.flatMap fun t => (aids.take 3).map fun a =>
      BASE_URL ++ strReplace (strReplace endpoint "<affiliation_type>" t) "<affiliation_id>" a
  else if strIn endpoint "<affiliation_id>" then
    (aids.take 3).map fun a => BASE_URL ++ strReplace endpoint "<affiliation_id>" a
  else if strIn endpoint "<person_id>" then
    (pids.take 3).map fun p => BASE_URL ++ strReplace endpoint "<person_id>" p
  else if strIn endpoint "<affiliation_type>" then
    atypes.map fun t => BASE_URL ++ strReplace endpoint "<affiliation_type>" t
  else
    match kwmap.lookup endpoint with
    | some kws => [BASE_URL ++ endpoint ++ "?keywords=" ++ choice kws]
    | none => [BASE_URL ++ endpoint]

/-- `expand_endpoints()` from `build_url.py`, parametrised by the model of
`random.choice`. -/
def expandEndpoints (choice : List String → String) : List String :=
  RAW_ENDPOINTS.flatMap
    (expandOne choice KEYWORDS AFFILIATION_TYPES AFFILIATION_IDS PERSON_IDS)

/-! ### `api_expert/response_time.py`

`measure_response_time(url, repetitions)` performs `repetitions` HTTP GET
attempts.  An attempt is modelled by its outcome `Option ℚ`: `some t` when
`requests.get` returned after `t` seconds, `none` when it raised a
`requests.exceptions.RequestException` (timeout, connection error, or any
other error raised by the client — all are subclasses of
`RequestException`).  The `times` list accumulates exactly the successful
elapsed times, in order. -/

/-- `measure_response_time`: mean of the successful attempts, `None` when
every attempt failed. -/
def measure_response_time (attempts : List (Option ℚ)) : Option ℚ :=
  let times := attempts.filterMap id
  if times.isEmpty then none
  else some (times.sum / (times.length : ℚ))

/-- The `for endpoint in urls` loop of the `__main__` block: one record per
URL whose measurement returned a value (`is not None`), in order.  `m` is the
measurement function (`measure_response_time` applied to that URL's attempt
outcomes). -/
def collectResults (m : String → Option ℚ) (urls : List String) : List (String × ℚ) :=
  urls.filterMap fun u => (m u).map fun t => (u, t)

/-- Decimal digit character (`0`–`9`) for a digit value. -/
def digitChar (d : ℕ) : Char := Char.ofNat (48 + d)

/-- The three fractional digits of `m` (`m < 1000`), zero-padded. -/
def frac3 (m : ℕ) : String :=
  ⟨[digitChar (m / 100 % 10), digitChar (m / 10 % 10), digitChar (m % 10)]⟩

/-- Python `f-string` formatting `:.3f`: the value rounded to, and rendered
with, exactly three digits after the decimal point. -/
def format3 (x : ℚ) : String :=
  let n : ℤ := round (x * 1000)
  (if n < 0 then "-" else "") ++ toString (n.natAbs / 1000) ++ "." ++ frac3 (n.natAbs % 1000)

/-- The header row written by `csv.DictWriter.writeheader()` (the csv module
terminates rows with CR LF). -/
def headerLine : String := "url,average_time\r\n"

/-- One CSV data row: the url, a comma, and the average time formatted with
`:.3f`. -/
def csvRow (r : String × ℚ) : String := r.1 ++ "," ++ format3 r.2 ++ "\r\n"

/-- The CSV-writing tail of the `__main__` block: the file is opened in
append mode (`"a"`), so the new content follows the prior content `prior`;
the header is written only when `os.path.isfile` reported that the file did
not exist; then all records are appended. -/
def appendCsv (fileExists : Bool) (prior : String) (results : List (String × ℚ)) : String :=
  prior ++ (if fileExists then "" else headerLine) ++ String.join (results.map csvRow)

/-! ### `report.py` -/

/-- The literal pattern removed from the stored URLs by
`load_and_clean_data` (`df['url'].str.replace(r'http...8010/api/', '',
regex=True)`; the pattern contains no regex metacharacter, so it matches
itself literally, every occurrence being replaced). -/
def CLEAN_PAT : String := "http://localhost:8010/api/"

/-- The `clean_endpoint` column: the stored URL with every occurrence of the
base-URL-and-API pattern removed. -/
def clean_endpoint (url : String) : String := ⟨replAll CLEAN_PAT.data [] url.data⟩

/-- The `response_time_ms` column: `average_time * 1000`. -/
def response_time_ms (t : ℚ) : ℚ := t * 1000

/-- `extract_base_endpoint`: Python `endpoint.split('?')[0]`, the part of the
endpoint before the first `?` (the whole endpoint when it has none). -/
def extract_base_endpoint (endpoint : String) : String :=
  ⟨endpoint.data.takeWhile fun c => c != '?'⟩

/-- `categorize_endpoint` from `report.py`. -/
def categorize_endpoint (endpoint : String) : String :=
  if strIn endpoint "search" then "search"
  else if strIn endpoint "person" && !(strIn endpoint "apc") then "person"
  else if strIn endpoint "affiliation" && !(strIn endpoint "apc") then "affiliation"
  else if strIn endpoint "apc" then "apc"
  else "other"

/-- The row of derived columns `load_and_clean_data` computes from one stored
record `(url, average_time)`. -/
structure CleanRow where
  clean : String
  ms : ℚ
  base : String
  etype : String
deriving Repr, DecidableEq

/-- One row of `load_and_clean_data`: each derived column as computed by
`report.py` from the stored `url` and `average_time`. -/
def load_row (url : String) (average_time : ℚ) : CleanRow :=
  { clean := clean_endpoint url
    ms := response_time_ms average_time
    base := extract_base_endpoint (clean_endpoint url)
    etype := categorize_endpoint (clean_endpoint url) }

/-- The characters after the last decimal point of `s`, in reverse order
(used to state that a formatted number has exactly three decimals). -/
def afterPoint (s : String) : List Char := s.data.reverse.takeWhile fun c => c != '.'

/-! ### Helper lemmas -/

lemma leadsWith_self_append (p l : List Char) : leadsWith p (p ++ l) = true := by
  induction p with
  | nil => rfl
  | cons c cs ih => simp [leadsWith, ih]

lemma replAllF_no_occur : ∀ (f : ℕ) (pat repl s : List Char), s.length ≤ f →
    occursIn pat s = false → replAllF f pat repl s = s := by
  intro f
  induction f with
  | zero =>
    intro pat repl s hs _
    have : s = [] := List.eq_nil_of_length_eq_zero (by omega)
    subst this
    rfl
  | succ f ih =>
    intro pat repl s hs h
    cases s with
    | nil => rfl
    | cons c rest =>
      have h2 : leadsWith pat (c :: rest) = false ∧ occursIn pat rest = false := by
        simpa [occursIn] using h
      simp only [replAllF]
      rw [if_neg (by simp [h2.1])]
      have := ih pat repl rest (by simpa using Nat.le_of_succ_le_succ (by simpa using hs)) h2.2
      rw [this]

lemma replAll_strip (p : Char) (ps repl l : List Char) (h : occursIn (p :: ps) l = false) :
    replAll (p :: ps) repl ((p :: ps) ++ l) = repl ++ l := by
  show replAllF ((p :: ps) ++ l).length (p :: ps) repl ((p :: ps) ++ l) = repl ++ l
  rw [List.cons_append]
  simp only [List.length_cons]
  simp only [replAllF]
  rw [if_pos ⟨by simp, by simpa [leadsWith] using leadsWith_self_append ps l⟩]
  simp only [List.length_cons, List.drop_succ_cons, List.drop_left]
  rw [replAllF_no_occur _ _ _ _ (by simp) h]

lemma clean_endpoint_strips (rest : String) (h : strIn rest CLEAN_PAT = false) :
    clean_endpoint (CLEAN_PAT ++ rest) = rest := by
  have h2 : occursIn CLEAN_PAT.data rest.data = false := h
  show (⟨replAll CLEAN_PAT.data [] (CLEAN_PAT ++ rest).data⟩ : String) = rest
  rw [String.data_append]
  rw [show CLEAN_PAT.data = 'h' :: "ttp://localhost:8010/api/".data from rfl] at h2 ⊢
  rw [replAll_strip _ _ _ _ h2]
  rfl

lemma takeWhile_stop (p : Char → Bool) (x : Char) (a b : List Char)
    (h : ∀ c ∈ a, p c = true) (hx : p x = false) :
    List.takeWhile p (a ++ x :: b) = a := by
  induction a with
  | nil => simp [List.takeWhile_cons, hx]
  | cons c cs ih =>
    simp [List.takeWhile_cons, h c (by simp), ih fun y hy => h y (by simp [hy])]

lemma takeWhile_all (p : Char → Bool) (l : List Char) (h : ∀ c ∈ l, p c = true) :
    List.takeWhile p l = l := by
  induction l with
  | nil => rfl
  | cons c cs ih =>
    simp [List.takeWhile_cons, h c (by simp), ih fun y hy => h y (by simp [hy])]

lemma no_q_of_occursIn : ∀ (l : List Char), occursIn ['?'] l = false →
    ∀ c ∈ l, (c != '?') = true := by
  intro l
  induction l with
  | nil => simp
  | cons c cs ih =>
    intro h x hx
    have h2 : ('?' == c) = false ∧ occursIn ['?'] cs = false := by
      simpa [occursIn, leadsWith] using h
    rcases List.mem_cons.mp hx with rfl | hx2
    · simp_all [bne, BEq.beq, decide_eq_false_iff_not]
      exact fun hq => h2.1 hq.symm
    · exact ih h2.2 x hx2

lemma extract_base_split (a b : String) (h : strIn a "?" = false) :
    extract_base_endpoint (a ++ "?" ++ b) = a := by
  have h2 := no_q_of_occursIn a.data h
  show (⟨List.takeWhile _ (a ++ "?" ++ b).data⟩ : String) = a
  rw [String.data_append, String.data_append,
    show ("?" : String).data = ['?'] from rfl, List.append_assoc, List.singleton_append,
    takeWhile_stop _ '?' _ _ h2 (by decide)]

lemma extract_base_all (a : String) (h : strIn a "?" = false) :
    extract_base_endpoint a = a := by
  have h2 := no_q_of_occursIn a.data h
  show (⟨List.takeWhile _ a.data⟩ : String) = a
  rw [takeWhile_all _ _ h2]

lemma flatMap_map_length {α β γ : Type} (l1 : List α) (l2 : List β) (f : α → β → γ) :
    (l1.flatMap fun a => l2.map (f a)).length = l1.length * l2.length := by
  induction l1 with
  | nil => simp
  | cons a t ih =>
    simp only [List.flatMap_cons, List.length_append, List.length_map, ih, List.length_cons]
    rw [Nat.succ_mul]
    omega

lemma flatMap_map_getElem {α β γ : Type} (l1 : List α) (l2 : List β) (f : α → β → γ) :
    ∀ (i j : ℕ) (hi : i < l1.length) (hj : j < l2.length),
      (l1.flatMap fun a => l2.map (f a))[i * l2.length + j]? =
        some (f (l1.get ⟨i, hi⟩) (l2.get ⟨j, hj⟩)) := by
  induction l1 with
  | nil => intro i j hi; simp at hi
  | cons a t ih =>
    intro i j hi hj
    cases i with
    | zero =>
      rw [List.flatMap_cons, List.getElem?_append_left (by simpa using hj)]
      simp [List.getElem?_map, List.getElem?_eq_getElem hj]
    | succ n =>
      rw [List.flatMap_cons, List.getElem?_append_right (by simp [Nat.succ_mul]; omega)]
      have harith : (n + 1) * l2.length + j - (l2.map (f a)).length = n * l2.length + j := by
        simp [Nat.succ_mul]; omega
      rw [harith]
      exact ih n j (by simpa using hi) hj

lemma take_three_get {α : Type} (l : List α) (j : ℕ) (h3 : 3 ≤ l.length) (hj : j < 3)
    (hj2 : j < (l.take 3).length) :
    (l.take 3).get ⟨j, hj2⟩ = l.get ⟨j, lt_of_lt_of_le hj h3⟩ := by
  simp [List.getElem_take]

lemma digit_facts (d : ℕ) (h : d < 10) :
    ((digitChar d) != '.') = true ∧ (digitChar d).isDigit = true := by
  interval_cases d <;> exact ⟨by decide, by decide⟩

lemma afterPoint_format3 (x : ℚ) :
    (afterPoint (format3 x)).length = 3 ∧
    ∀ c ∈ afterPoint (format3 x), c.isDigit = true := by
  have h0 := digit_facts ((round (x * 1000)).natAbs % 1000 % 10) (Nat.mod_lt _ (by norm_num))
  have h1 := digit_facts ((round (x * 1000)).natAbs % 1000 / 10 % 10) (Nat.mod_lt _ (by norm_num))
  have h2 := digit_facts ((round (x * 1000)).natAbs % 1000 / 100 % 10) (Nat.mod_lt _ (by norm_num))
  have key : afterPoint (format3 x) =
      [digitChar ((round (x * 1000)).natAbs % 1000 % 10),
       digitChar ((round (x * 1000)).natAbs % 1000 / 10 % 10),
       digitChar ((round (x * 1000)).natAbs % 1000 / 100 % 10)] := by
    unfold afterPoint format3 frac3
    rw [String.data_append, String.data_append, String.data_append]
    rw [show ("." : String).data = ['.'] from rfl]
    simp only [List.append_assoc, List.singleton_append, List.reverse_append,
      List.reverse_cons, List.reverse_nil, List.nil_append, List.cons_append]
    exact takeWhile_stop (fun c => c != '.') '.'
      [digitChar ((round (x * 1000)).natAbs % 1000 % 10),
       digitChar ((round (x * 1000)).natAbs % 1000 / 10 % 10),
       digitChar ((round (x * 1000)).natAbs % 1000 / 100 % 10)] _
      (by
        intro c hc
        simp only [List.mem_cons, List.not_mem_nil, or_false] at hc
        rcases hc with rfl | rfl | rfl
        · exact h0.1
        · exact h1.1
        · exact h2.1)
      (by decide)
  rw [key]
  refine ⟨rfl, ?_⟩
  intro c hc
  simp only [List.mem_cons, List.not_mem_nil, or_false] at hc
  rcases hc with rfl | rfl | rfl
  · exact h0.2
  · exact h1.2
  · exact h2.2

/-- `expand_endpoints()` evaluated on the constant tables: the 22 URLs it
returns, with the three `random.choice` selections left symbolic. -/
lemma expandEndpoints_eq (choice : List String → String) :
    expandEndpoints choice =
  [ "http://localhost:8010/api/affiliation/institution/01p9nak43/research/products",
    "http://localhost:8010/api/affiliation/institution/04j43p132/research/products",
    "http://localhost:8010/api/affiliation/institution/027nnzv91/research/products",
    "http://localhost:8010/api/apc/affiliation/01p9nak43",
    "http://localhost:8010/api/apc/affiliation/04j43p132",
    "http://localhost:8010/api/apc/affiliation/027nnzv91",
    "http://localhost:8010/api/apc/person/A5105622035",
    "http://localhost:8010/api/apc/person/A5112693177",
    "http://localhost:8010/api/apc/person/0000000347185957",
    "http://localhost:8010/api/apc/search?keywords=" ++ choice ["500", "1000", "1500", "2000"],
    "http://localhost:8010/api/person/A5105622035",
    "http://localhost:8010/api/person/A5112693177",
    "http://localhost:8010/api/person/0000000347185957",
    "http://localhost:8010/api/person/A5105622035/research/products",
    "http://localhost:8010/api/person/A5112693177/research/products",
    "http://localhost:8010/api/person/0000000347185957/research/products",
    "http://localhost:8010/api/person/A5105622035/research/news",
    "http://localhost:8010/api/person/A5112693177/research/news",
    "http://localhost:8010/api/person/0000000347185957/research/news",
    "http://localhost:8010/api/search/affiliations/institution",
    "http://localhost:8010/api/search/person?keywords=" ++ choice ["esteban", "alejandra", "jaime", "garcia"],
    "http://localhost:8010/api/search/works?keywords=" ++ choice ["ciencia", "data", "ai", "salud"] ] := rfl

/-! ### Claim theorems -/

/-- Claim C1, counterexample: the claim states that any string containing
`person` but not `search` classifies as `person`; the input
`apc/person/A5105622035` (the cleaned endpoint of a generated URL) contains
`person` and not `search`, yet `categorize_endpoint` classifies it as `apc`,
because the code's `person` branch also requires that `apc` not occur. -/
theorem categorize_endpoint_counterexample :
    strIn "apc/person/A5105622035" "person" = true ∧
    strIn "apc/person/A5105622035" "search" = false ∧
    categorize_endpoint "apc/person/A5105622035" = "apc" := by
  decide

/-- Claim C1, amended: `categorize_endpoint` classifies by substring match
with priority `search` first; then `apc` beats `person` and `affiliation`
(the `person` and `affiliation` branches both exclude strings containing
`apc`); `person` applies when the string has `person` but neither `search`
nor `apc`; `affiliation` when it has `affiliation` but none of `search`,
`apc`, `person`; all remaining strings are `other`. -/
theorem categorize_endpoint_priority (e : String) :
    (strIn e "search" = true → categorize_endpoint e = "search") ∧
    (strIn e "search" = false → strIn e "apc" = true → categorize_endpoint e = "apc") ∧
    (strIn e "search" = false → strIn e "apc" = false → strIn e "person" = true →
      categorize_endpoint e = "person") ∧
    (strIn e "search" = false → strIn e "apc" = false → strIn e "person" = false →
      strIn e "affiliation" = true → categorize_endpoint e = "affiliation") ∧
    (strIn e "search" = false → strIn e "apc" = false → strIn e "person" = false →
      strIn e "affiliation" = false → categorize_endpoint e = "other") := by
  refine ⟨?_, ?_, ?_, ?_, ?_⟩ <;> intros <;> simp_all [categorize_endpoint]

/-- Witness for C1's amended theorem at a concrete endpoint. -/
theorem categorize_endpoint_priority_witness :
    categorize_endpoint "affiliation/institution/01p9nak43" = "affiliation" :=
  (categorize_endpoint_priority "affiliation/institution/01p9nak43").2.2.2.1
    (by decide) (by decide) (by decide) (by decide)

/-- Claim C2: a failed attempt (a `none` outcome) contributes nothing to the
collected times and does not disturb the attempts before or after it — the
sampler's result over `pre ++ none :: post` equals the result over
`pre ++ post` — while a successful attempt's elapsed time is recorded, in
order, among the collected times. -/
theorem measure_response_time_skips_failures (pre post : List (Option ℚ)) :
    measure_response_time (pre ++ none :: post) = measure_response_time (pre ++ post) ∧
    (pre ++ none :: post).filterMap id = pre.filterMap id ++ post.filterMap id ∧
    ∀ d : ℚ, (pre ++ some d :: post).filterMap id =
      pre.filterMap id ++ d :: post.filterMap id := by
  refine ⟨?_, ?_, fun d => ?_⟩ <;>
    simp [measure_response_time, List.filterMap_append, List.filterMap_cons]

/-- Claim C3: for a template holding both an affiliation-type and an
affiliation-id placeholder, and an id sample list with at least three
entries, `expand_endpoints` emits exactly `|atypes| * 3` URLs — the cross
product of all affiliation types with the first three id samples, in product
order, each URL being the base URL plus the template with both placeholders
substituted. -/
theorem expandOne_both_placeholders (choice : List String → String)
    (kwmap : List (String × List String)) (atypes aids pids : List String) (e : String)
    (hT : strIn e "<affiliation_type>" = true)
    (hI : strIn e "<affiliation_id>" = true)
    (h3 : 3 ≤ aids.length) :
    (expandOne choice kwmap atypes aids pids e).length = atypes.length * 3 ∧
    ∀ (i j : ℕ) (hi : i < atypes.length) (hj : j < 3),
      (expandOne choice kwmap atypes aids pids e)[i * 3 + j]? =
        some (BASE_URL ++ strReplace (strReplace e "<affiliation_type>" (atypes.get ⟨i, hi⟩))
          "<affiliation_id>" (aids.get ⟨j, lt_of_lt_of_le hj h3⟩)) := by
  have hexp : expandOne choice kwmap atypes aids pids e =
      atypes.flatMap fun t => (aids.take 3).map fun a =>
        BASE_URL ++ strReplace (strReplace e "<affiliation_type>" t) "<affiliation_id>" a := by
    simp [expandOne, hT, hI]
  have hlen : (aids.take 3).length = 3 := by
    simp [List.length_take]; omega
  constructor
  · rw [hexp, flatMap_map_length, hlen]
  · intro i j hi hj
    have hj2 : j < (aids.take 3).length := by omega
    have := flatMap_map_getElem atypes (aids.take 3)
      (fun t a => BASE_URL ++ strReplace (strReplace e "<affiliation_type>" t) "<affiliation_id>" a)
      i j hi hj2
    rw [hexp, show i * 3 + j = i * (List.take 3 aids).length + j by rw [hlen]]
    rw [this, take_three_get aids j h3 hj hj2]

/-- Witness for C3 at the repository's own template and tables. -/
theorem expandOne_both_placeholders_witness :
    (expandOne (fun l => l.headD "") KEYWORDS AFFILIATION_TYPES AFFILIATION_IDS PERSON_IDS
      "/api/affiliation/<affiliation_type>/<affiliation_id>/research/products").length =
      AFFILIATION_TYPES.length * 3 :=
  (expandOne_both_placeholders (fun l => l.headD "") KEYWORDS AFFILIATION_TYPES
    AFFILIATION_IDS PERSON_IDS
    "/api/affiliation/<affiliation_type>/<affiliation_id>/research/products"
    (by decide) (by decide) (by decide)).1

/-- Claim C4: when every attempt failed, `measure_response_time` returns the
`none` sentinel (not a zero value, not an error), and the calling loop emits
no record for a URL whose measurement is `none`: no pair with that URL
appears among the collected CSV rows. -/
theorem measure_all_fail_no_record (attempts : List (Option ℚ))
    (h : ∀ a ∈ attempts, a = none) :
    measure_response_time attempts = none ∧
    (∀ z : ℚ, measure_response_time attempts ≠ some z) ∧
    ∀ (m : String → Option ℚ) (urls : List String) (u : String),
      m u = none → ∀ t : ℚ, (u, t) ∉ collectResults m urls := by
  have hnil : attempts.filterMap id = [] := by
    rw [List.filterMap_eq_nil_iff]
    intro a ha
    simp [h a ha]
  refine ⟨by simp [measure_response_time, hnil], by simp [measure_response_time, hnil], ?_⟩
  intro m urls u hm t hmem
  rw [collectResults, List.mem_filterMap] at hmem
  obtain ⟨x, _, hx⟩ := hmem
  rw [Option.map_eq_some'] at hx
  obtain ⟨a, hma, heq⟩ := hx
  cases heq
  rw [hm] at hma
  exact Option.noConfusion hma

/-- Witness for C4: three failed attempts yield the `none` sentinel. -/
theorem measure_all_fail_no_record_witness :
    measure_response_time [none, none, none] = none :=
  (measure_all_fail_no_record [none, none, none] (by simp)).1

/-- Claim C5: when at least one attempt succeeded, `measure_response_time`
returns the arithmetic mean of the successful durations only (failed
attempts appear in neither the sum nor the divisor); in particular two
successes `d1`, `d2` out of three attempts yield `(d1 + d2) / 2`. -/
theorem measure_mean_of_successes (attempts : List (Option ℚ))
    (h : attempts.filterMap id ≠ []) :
    measure_response_time attempts =
      some ((attempts.filterMap id).sum / ((attempts.filterMap id).length : ℚ)) ∧
    ∀ d1 d2 : ℚ, measure_response_time [some d1, none, some d2] = some ((d1 + d2) / 2) := by
  constructor
  · simp [measure_response_time, h]
  · intro d1 d2
    have h2 : List.filterMap id [some d1, none, some d2] = [d1, d2] := rfl
    simp [measure_response_time, h2]

/-- Witness for C5 at concrete durations. -/
theorem measure_mean_of_successes_witness :
    measure_response_time [some (1 : ℚ), none, some 2] = some ((1 + 2) / 2) :=
  (measure_mean_of_successes [some (1 : ℚ), none, some 2] (by simp)).2 1 2

/-- Claim C6: for a stored record whose URL is the base-URL-and-API pattern
followed by a remainder free of that pattern (every URL the sampler writes),
the loader's derived columns satisfy: `clean_endpoint` is exactly the
remainder (so the URL is recovered by re-attaching the pattern),
`response_time_ms` is the stored time times 1000, and `base_endpoint` is the
cleaned endpoint up to its first `?` (all of it when it has no `?`). -/
theorem load_round_trip (rest : String) (t : ℚ) (h : strIn rest CLEAN_PAT = false) :
    (load_row (CLEAN_PAT ++ rest) t).clean = rest ∧
    CLEAN_PAT ++ (load_row (CLEAN_PAT ++ rest) t).clean = CLEAN_PAT ++ rest ∧
    (load_row (CLEAN_PAT ++ rest) t).ms = t * 1000 ∧
    (load_row (CLEAN_PAT ++ rest) t).base = extract_base_endpoint rest ∧
    (∀ a b : String, strIn a "?" = false →
      extract_base_endpoint (a ++ "?" ++ b) = a) ∧
    (strIn rest "?" = false → extract_base_endpoint rest = rest) := by
  have hc := clean_endpoint_strips rest h
  exact ⟨hc,
    by show CLEAN_PAT ++ clean_endpoint (CLEAN_PAT ++ rest) = CLEAN_PAT ++ rest; rw [hc],
    rfl, by simp [load_row, hc], fun a b ha => extract_base_split a b ha,
    fun hq => extract_base_all rest hq⟩

/-- Witness for C6 at a concrete sampled URL. -/
theorem load_round_trip_witness :
    (load_row (CLEAN_PAT ++ "search/person?keywords=esteban") (3 : ℚ)).clean =
      "search/person?keywords=esteban" :=
  (load_round_trip "search/person?keywords=esteban" 3 (by decide)).1

/-- Claim C7: a template with none of the three placeholders whose literal
string is a key of the keyword map yields exactly one URL: the base URL plus
the unchanged template plus a query string `?keywords=` carrying the selected
element of that key's keyword list. -/
theorem expandOne_keyword_branch (choice : List String → String)
    (kwmap : List (String × List String)) (atypes aids pids : List String)
    (e : String) (kws : List String)
    (hT : strIn e "<affiliation_type>" = false)
    (hI : strIn e "<affiliation_id>" = false)
    (hP : strIn e "<person_id>" = false)
    (hK : kwmap.lookup e = some kws)
    (hc : choice kws ∈ kws) :
    expandOne choice kwmap atypes aids pids e =
      [BASE_URL ++ e ++ "?keywords=" ++ choice kws] ∧
    ∃ kw ∈ kws, expandOne choice kwmap atypes aids pids e =
      [BASE_URL ++ e ++ "?keywords=" ++ kw] := by
  have h1 : expandOne choice kwmap atypes aids pids e =
      [BASE_URL ++ e ++ "?keywords=" ++ choice kws] := by
    simp [expandOne, hT, hI, hP, hK]
  exact ⟨h1, choice kws, hc, h1⟩

/-- Witness for C7 at the `/api/search/works` template. -/
theorem expandOne_keyword_branch_witness :
    expandOne (fun l => l.headD "") KEYWORDS AFFILIATION_TYPES AFFILIATION_IDS PERSON_IDS
      "/api/search/works" = ["http://localhost:8010/api/search/works?keywords=ciencia"] :=
  ((expandOne_keyword_branch (fun l => l.headD "") KEYWORDS AFFILIATION_TYPES AFFILIATION_IDS
    PERSON_IDS "/api/search/works" ["ciencia", "data", "ai", "salud"] (by decide) (by decide)
    (by decide) (by decide) (by decide)).1).trans (by decide)

/-- Claim C8: the writer appends after the prior file content; the header
line `url,average_time` is present exactly when the file did not already
exist (so it is written once across accumulated runs); each record renders
as `url,<time>`, with the time carrying exactly three digits after the
decimal point. -/
theorem appendCsv_spec (fe : Bool) (prior : String) (rs : List (String × ℚ)) :
    appendCsv fe prior rs =
      prior ++ (if fe then "" else headerLine) ++ String.join (rs.map csvRow) ∧
    (appendCsv false prior rs).length = headerLine.length + (appendCsv true prior rs).length ∧
    (∀ r ∈ rs, csvRow r = r.1 ++ "," ++ format3 r.2 ++ "\r\n") ∧
    (∀ t : ℚ, (afterPoint (format3 t)).length = 3 ∧
      ∀ c ∈ afterPoint (format3 t), c.isDigit = true) := by
  refine ⟨rfl, ?_, fun r _ => rfl, fun t => afterPoint_format3 t⟩
  simp [appendCsv, String.length_append]
  omega

/-- Witness for C8 at a concrete run: empty prior file, one record. -/
theorem appendCsv_spec_witness :
    appendCsv false "" [("u", (3 : ℚ) / 2)] =
      "" ++ (if false then "" else headerLine) ++
        String.join ([(("u" : String), (3 : ℚ) / 2)].map csvRow) :=
  (appendCsv_spec false "" [("u", (3 : ℚ) / 2)]).1

/-- Claim C9: whatever keyword `random.choice` selects, `expand_endpoints`
returns exactly 22 URLs, each starting with the base URL
`http://localhost:8010`, and none containing a residual placeholder marker
`<` or `>`. -/
theorem expandEndpoints_invariant (choice : List String → String)
    (hc : ∀ l : List String, l ≠ [] → choice l ∈ l) :
    (expandEndpoints choice).length = 22 ∧
    ∀ u ∈ expandEndpoints choice,
      leadsWith BASE_URL.data u.data = true ∧ strIn u "<" = false ∧ strIn u ">" = false := by
  have hA := hc ["500", "1000", "1500", "2000"] (by simp)
  have hP := hc ["esteban", "alejandra", "jaime", "garcia"] (by simp)
  have hW := hc ["ciencia", "data", "ai", "salud"] (by simp)
  simp only [List.mem_cons, List.not_mem_nil, or_false] at hA hP hW
  rw [expandEndpoints_eq]
  rcases hA with h1 | h1 | h1 | h1 <;> rcases hP with h2 | h2 | h2 | h2 <;>
    rcases hW with h3 | h3 | h3 | h3 <;> rw [h1, h2, h3] <;> decide

/-- Witness for C9 with first-element selection. -/
theorem expandEndpoints_invariant_witness :
    (expandEndpoints fun l => l.headD "").length = 22 :=
  (expandEndpoints_invariant (fun l => l.headD "")
    (by
      intro l hl
      cases l with
      | nil => exact absurd rfl hl
      | cons a t => exact List.mem_cons_self a t)).1

/-- Claim C10: exactly three of the generated URLs carry a `keywords=` query
parameter; the keyword list stored under `/api/search/affiliations` is never
consulted — replacing it by any other list leaves the output unchanged,
because the `/api/search/affiliations/<affiliation_type>` template is handled
by the placeholder branch — and that template's URL is emitted with no query
string at all. -/
theorem expandEndpoints_keyword_usage (choice : List String → String)
    (hc : ∀ l : List String, l ≠ [] → choice l ∈ l) :
    (expandEndpoints choice).countP (fun u => strIn u "keywords=") = 3 ∧
    (∀ l : List String,
      RAW_ENDPOINTS.flatMap
        (expandOne choice (KEYWORDS_with l) AFFILIATION_TYPES AFFILIATION_IDS PERSON_IDS) =
        expandEndpoints choice) ∧
    "http://localhost:8010/api/search/affiliations/institution" ∈ expandEndpoints choice ∧
    strIn "http://localhost:8010/api/search/affiliations/institution" "?" = false := by
  have hA := hc ["500", "1000", "1500", "2000"] (by simp)
  have hP := hc ["esteban", "alejandra", "jaime", "garcia"] (by simp)
  have hW := hc ["ciencia", "data", "ai", "salud"] (by simp)
  simp only [List.mem_cons, List.not_mem_nil, or_false] at hA hP hW
  refine ⟨?_, fun l => rfl, ?_, by decide⟩ <;>
    rw [expandEndpoints_eq] <;>
    rcases hA with h1 | h1 | h1 | h1 <;> rcases hP with h2 | h2 | h2 | h2 <;>
      rcases hW with h3 | h3 | h3 | h3 <;> rw [h1, h2, h3] <;> decide

/-- Witness for C10 with first-element selection. -/
theorem expandEndpoints_keyword_usage_witness :
    (expandEndpoints fun l => l.headD "").countP (fun u => strIn u "keywords=") = 3 :=
  (expandEndpoints_keyword_usage (fun l => l.headD "")
    (by
      intro l hl
      cases l with
      | nil => exact absurd rfl hl
      | cons a t => exact List.mem_cons_self a t)).1

end PerfQuyca
